import Mathlib

/-!
Verification of the cube-turn core of the `ruvik` 3×3×3 twisty-puzzle
program (`src/game/mod.rs`).

The embedding models the four per-frame systems as pure state-transition
functions.  `f32` angle arithmetic is modelled exactly over `ℚ`: the
constant `std::f32::consts::PI` is the rational value of that `f32`
literal, `f32::round` / `f32::rem_euclid` / `i32::rem_euclid` are given
their exact real-number semantics, and length comparisons (which the code
performs on square roots of rational squared lengths) are embedded as the
equivalent comparisons of squared lengths.  Quaternions and rotated
translation vectors are kept as formal expression trees, since the claims
under study are about *which* quaternion expression a transform ends up
with, not about trigonometric values.
-/

namespace Ruvik

/-- `enum CubeAxis { X, Y, Z }` from `src/game/mod.rs`. -/
inductive CubeAxis where
  | X
  | Y
  | Z
deriving DecidableEq

/-- `enum CubeFace { PosX, NegX, PosY, NegY, PosZ, NegZ }`. -/
inductive CubeFace where
  | PosX
  | NegX
  | PosY
  | NegY
  | PosZ
  | NegZ
deriving DecidableEq

/-- 2-d vector with exact rational components (models `Vec2`). -/
structure Vec2 where
  x : ℚ
  y : ℚ
deriving DecidableEq

/-- 3-d vector with exact rational components (models `Vec3`). -/
structure Vec3 where
  x : ℚ
  y : ℚ
  z : ℚ
deriving DecidableEq

/-- Componentwise difference of `Vec2`s. -/
def Vec2.sub (a b : Vec2) : Vec2 := ⟨a.x - b.x, a.y - b.y⟩

/-- Dot product of `Vec2`s. -/
def Vec2.dot (a b : Vec2) : ℚ := a.x * b.x + a.y * b.y

/-- Squared euclidean length of a `Vec2` (`v.length()` squared). -/
def Vec2.lengthSq (v : Vec2) : ℚ := Vec2.dot v v

/-- The exact rational value of the `f32` constant `std::f32::consts::PI`
(the IEEE-754 single nearest to π, `13176795 * 2⁻²²`). -/
def PI32 : ℚ := 13176795 / 4194304

/-- Exact semantics of `f32::round`: round half away from zero. -/
def rustRound (x : ℚ) : ℤ := if 0 ≤ x then ⌊x + 1 / 2⌋ else ⌈x - 1 / 2⌉

/-- Exact semantics of `f32::rem_euclid` for a positive modulus. -/
def rustRemEuclid (x y : ℚ) : ℚ := x - y * (⌊x / y⌋ : ℤ)

/-- Exact semantics of `f32::signum` on `ℚ` (which has no negative zero):
`1` for non-negative values, `-1` for negative ones. -/
def rustSignum (x : ℚ) : ℚ := if x < 0 then -1 else 1

/-- The coordinate component of a cubie position along an axis
(`position.0` / `position.1` / `position.2`). -/
def axisComponent (axis : CubeAxis) (p : ℕ × ℕ × ℕ) : ℕ :=
  match axis with
  | .X => p.1
  | .Y => p.2.1
  | .Z => p.2.2

/-- The coordinate permutation applied on snap completion,
`src/game/mod.rs` lines 509–528: per axis, `target_rotations ∈ {1,2,3}`
picks a quarter-turn table entry and anything else is the identity.
Components are `u32`; on the claimed domain `{0,1,2}³` the subtractions
`2 - c` never underflow. -/
def rotatePosition (axis : CubeAxis) (target_rotations : ℕ) (p : ℕ × ℕ × ℕ) :
    ℕ × ℕ × ℕ :=
  match p with
  | (curr_x, curr_y, curr_z) =>
    match axis with
    | .X =>
      match target_rotations with
      | 1 => (curr_x, 2 - curr_z, curr_y)
      | 2 => (curr_x, 2 - curr_y, 2 - curr_z)
      | 3 => (curr_x, curr_z, 2 - curr_y)
      | _ => (curr_x, curr_y, curr_z)
    | .Y =>
      match target_rotations with
      | 1 => (curr_z, curr_y, 2 - curr_x)
      | 2 => (2 - curr_x, curr_y, 2 - curr_z)
      | 3 => (2 - curr_z, curr_y, curr_x)
      | _ => (curr_x, curr_y, curr_z)
    | .Z =>
      match target_rotations with
      | 1 => (2 - curr_y, curr_x, curr_z)
      | 2 => (2 - curr_x, 2 - curr_y, curr_z)
      | 3 => (curr_y, 2 - curr_x, curr_z)
      | _ => (curr_x, curr_y, curr_z)

/-- **C1.** For every coordinate in `{0,1,2}³` and every axis, four
successive applications of the `turn_count = 1` permutation table return
the original coordinate. -/
theorem c1_quarter_turn_fourth_power_identity :
    ∀ (axis : CubeAxis) (x y z : Fin 3),
      rotatePosition axis 1 (rotatePosition axis 1 (rotatePosition axis 1
        (rotatePosition axis 1 ((x : ℕ), (y : ℕ), (z : ℕ))))) =
        ((x : ℕ), (y : ℕ), (z : ℕ)) := by
  intro axis
  cases axis <;> decide

/-- **C2.** For every axis and `turn_count ∈ {0,1,2,3}` the permutation
table keeps every component in `{0,1,2}`, fixes the component along the
turned axis, is injective on the slice with that component fixed, and is
the identity at `turn_count = 0`. -/
theorem c2_rotation_table_bijection :
    ∀ (axis : CubeAxis) (t : Fin 4) (x y z : Fin 3),
      (rotatePosition axis (t : ℕ) ((x : ℕ), (y : ℕ), (z : ℕ))).1 < 3 ∧
      (rotatePosition axis (t : ℕ) ((x : ℕ), (y : ℕ), (z : ℕ))).2.1 < 3 ∧
      (rotatePosition axis (t : ℕ) ((x : ℕ), (y : ℕ), (z : ℕ))).2.2 < 3 ∧
      axisComponent axis (rotatePosition axis (t : ℕ) ((x : ℕ), (y : ℕ), (z : ℕ))) =
        axisComponent axis ((x : ℕ), (y : ℕ), (z : ℕ)) ∧
      (∀ x' y' z' : Fin 3,
        axisComponent axis ((x' : ℕ), (y' : ℕ), (z' : ℕ)) =
          axisComponent axis ((x : ℕ), (y : ℕ), (z : ℕ)) →
        rotatePosition axis (t : ℕ) ((x' : ℕ), (y' : ℕ), (z' : ℕ)) =
          rotatePosition axis (t : ℕ) ((x : ℕ), (y : ℕ), (z : ℕ)) →
        ((x' : ℕ), (y' : ℕ), (z' : ℕ)) = (((x : ℕ), (y : ℕ), (z : ℕ)) : ℕ × ℕ × ℕ)) ∧
      rotatePosition axis 0 ((x : ℕ), (y : ℕ), (z : ℕ)) =
        ((x : ℕ), (y : ℕ), (z : ℕ)) := by
  intro axis
  cases axis <;> decide

/-- Concrete instantiation of `c2_rotation_table_bijection`, discharging
its injectivity hypotheses at axis `X`, `turn_count 1`, point `(0,1,2)`. -/
theorem c2_rotation_table_bijection_witness :
    (rotatePosition CubeAxis.X 1 (0, 1, 2)).1 < 3 ∧
    ((0 : ℕ), (1 : ℕ), (2 : ℕ)) = (((0 : ℕ), (1 : ℕ), (2 : ℕ)) : ℕ × ℕ × ℕ) := by
  have h := c2_rotation_table_bijection CubeAxis.X 1 0 1 2
  exact ⟨h.1, h.2.2.2.2.1 0 1 2 rfl rfl⟩

/-- Quaternions kept as formal expression trees: the claims concern which
quaternion *expression* a transform is assigned (`Quat::from_axis_angle`
values and `mul_quat` compositions), not trigonometric evaluations.
`ident` is `Quat::IDENTITY`, the rotation of a freshly spawned cubie. -/
inductive Quat where
  | ident
  | fromAxisAngle (axis : Vec3) (angle : ℚ)
  | mulQuat (a b : Quat)
deriving DecidableEq

/-- Translation vectors as formal expression trees: either a concrete
rational vector or the image of one under a formal quaternion rotation. -/
inductive FVec3 where
  | base (v : Vec3)
  | rotated (q : Quat) (v : FVec3)
deriving DecidableEq

/-- The `Transform` fields this core reads and writes. -/
structure Transform where
  translation : FVec3
  rotation : Quat
  scale : Vec3
deriving DecidableEq

/-- `Transform::rotate_around` with center `Vec3::ZERO`, the only way the
core ever calls it: rotate the translation about the origin and compose
the rotation (`translation = rot * translation; rotation = rot * rotation`). -/
def Transform.rotateAroundOrigin (t : Transform) (q : Quat) : Transform :=
  { t with
    translation := FVec3.rotated q t.translation
    rotation := Quat.mulQuat q t.rotation }

/-- One cubie: its logical `position` (the `Cubie` component), its
`Transform`, and `some prev_rotation` when it carries a `BeingDragged`
component (whose single field is `prev_rotation`). -/
structure CubieState where
  position : ℕ × ℕ × ℕ
  transform : Transform
  dragged : Option Quat
deriving DecidableEq

/-- The `PendingDrag` component. -/
structure PendingDrag where
  viewport_origin : Vec2
  axis_0 : CubeAxis
  index_0 : ℕ
  viewport_dir_0 : Vec2
  axis_1 : CubeAxis
  index_1 : ℕ
  viewport_dir_1 : Vec2
deriving DecidableEq

/-- The `ActiveDrag` component. -/
structure ActiveDrag where
  axis : CubeAxis
  viewport_origin : Vec2
  viewport_dir : Vec2
  current_angle : ℚ
deriving DecidableEq

/-- The `ActiveCubeRotation` component. -/
structure ActiveCubeRotation where
  axis : CubeAxis
  current_angle : ℚ
  target_rotations : ℕ
deriving DecidableEq

/-- The unit vector of a `CubeAxis` (`Vec3::X` / `Vec3::Y` / `Vec3::Z`). -/
def axisVec : CubeAxis → Vec3
  | .X => ⟨1, 0, 0⟩
  | .Y => ⟨0, 1, 0⟩
  | .Z => ⟨0, 0, 1⟩

/-- `DRAG_ANGLE_SENSITIVITY` from `cubie_drag_system`. -/
def DRAG_ANGLE_SENSITIVITY : ℚ := 1 / 100

/-- `((current_angle / (PI / 2.0)).round() as i32).rem_euclid(4) as u32`
from `cubie_drag_system` line 400. -/
def targetRotationsOf (current_angle : ℚ) : ℕ :=
  ((rustRound (current_angle / (PI32 / 2))) % 4).toNat

/-- What `cubie_drag_system` leaves on the `Cube`: either the drag goes
on (`stay`, possibly with an updated angle) or the button was released
and `ActiveDrag` is replaced by `ActiveCubeRotation` (`toRotation`). -/
inductive DragOutcome where
  | stay (d : ActiveDrag)
  | toRotation (r : ActiveCubeRotation)
deriving DecidableEq

/-- `cubie_drag_system` (lines 381–441) as a transition function: inputs
are the left-button state, the optional cursor position, the `ActiveDrag`
on the cube and the cubie states; outputs are the new cube component and
the new cubie states.  Only `BeingDragged` cubies are in the system's
`dragged_cubies` query, so only they are rotated. -/
def cubie_drag_system (leftPressed : Bool) (cursor : Option Vec2)
    (drag : ActiveDrag) (cubies : List CubieState) :
    DragOutcome × List CubieState :=
  if !leftPressed then
    (DragOutcome.toRotation
      { axis := drag.axis
        current_angle := rustRemEuclid drag.current_angle (2 * PI32)
        target_rotations := targetRotationsOf drag.current_angle },
     cubies)
  else
    match cursor with
    | none => (DragOutcome.stay drag, cubies)
    | some cursor_position =>
      let intended_drag_angle :=
        Vec2.dot (Vec2.sub cursor_position drag.viewport_origin) drag.viewport_dir *
          DRAG_ANGLE_SENSITIVITY
      let drag_angle := intended_drag_angle - drag.current_angle
      let rotation_quat := Quat.fromAxisAngle (axisVec drag.axis) drag_angle
      (DragOutcome.stay { drag with current_angle := intended_drag_angle },
       cubies.map fun c =>
         if c.dragged.isSome then
           { c with transform := Transform.rotateAroundOrigin c.transform rotation_quat }
         else c)

/-- For a positive modulus the exact `rem_euclid` is non-negative. -/
theorem rustRemEuclid_nonneg (x y : ℚ) (hy : 0 < y) : 0 ≤ rustRemEuclid x y := by
  unfold rustRemEuclid
  have h := Int.floor_le (x / y)
  have h2 : y * (⌊x / y⌋ : ℚ) ≤ y * (x / y) := by
    exact mul_le_mul_of_nonneg_left h (le_of_lt hy)
  rw [mul_div_cancel₀ x (ne_of_gt hy)] at h2
  linarith

/-- For a positive modulus the exact `rem_euclid` is below the modulus. -/
theorem rustRemEuclid_lt (x y : ℚ) (hy : 0 < y) : rustRemEuclid x y < y := by
  unfold rustRemEuclid
  have h := Int.lt_floor_add_one (x / y)
  have h2 : y * (x / y) < y * ((⌊x / y⌋ : ℚ) + 1) := by
    exact mul_lt_mul_of_pos_left h hy
  rw [mul_div_cancel₀ x (ne_of_gt hy)] at h2
  nlinarith

/-- `0 < PI32`. -/
theorem PI32_pos : 0 < PI32 := by norm_num [PI32]

/-- **C3.** On release (`left button not pressed`) `cubie_drag_system`
replaces `ActiveDrag` by an `ActiveCubeRotation` whose target turn count
is `round(a / (π/2))` reduced by euclidean `mod 4` to a value in
`{0,1,2,3}`, whose current angle is `a` wrapped into `[0, 2π)` (it differs
from `a` by an integer multiple of `2π`), and it touches no cubie. -/
theorem c3_release_transition (cursor : Option Vec2) (drag : ActiveDrag)
    (cubies : List CubieState) :
    (cubie_drag_system false cursor drag cubies).2 = cubies ∧
    (cubie_drag_system false cursor drag cubies).1 =
      DragOutcome.toRotation
        { axis := drag.axis
          current_angle := rustRemEuclid drag.current_angle (2 * PI32)
          target_rotations := targetRotationsOf drag.current_angle } ∧
    targetRotationsOf drag.current_angle < 4 ∧
    0 ≤ rustRemEuclid drag.current_angle (2 * PI32) ∧
    rustRemEuclid drag.current_angle (2 * PI32) < 2 * PI32 ∧
    ∃ k : ℤ, rustRemEuclid drag.current_angle (2 * PI32) =
      drag.current_angle - (k : ℚ) * (2 * PI32) := by
  have h2pi : (0 : ℚ) < 2 * PI32 := by linarith [PI32_pos]
  refine ⟨rfl, rfl, ?_, rustRemEuclid_nonneg _ _ h2pi, rustRemEuclid_lt _ _ h2pi, ?_⟩
  · unfold targetRotationsOf
    omega
  · refine ⟨⌊drag.current_angle / (2 * PI32)⌋, ?_⟩
    unfold rustRemEuclid
    ring

/-- Helper: for a non-negative angle below `π/4`, the snapped turn count
is `0`. -/
theorem targetRotationsOf_eq_zero (a : ℚ) (ha : 0 ≤ a) (h1 : a < PI32 / 4) :
    targetRotationsOf a = 0 := by
  have hp : (0 : ℚ) < PI32 / 2 := by linarith [PI32_pos]
  have hx0 : 0 ≤ a / (PI32 / 2) := div_nonneg ha (le_of_lt hp)
  have hx2 : a / (PI32 / 2) < 1 / 2 := by
    rw [div_lt_iff₀ hp]; linarith
  unfold targetRotationsOf rustRound
  rw [if_pos hx0]
  have hf : ⌊a / (PI32 / 2) + 1 / 2⌋ = 0 := by
    rw [Int.floor_eq_iff]
    constructor <;> push_cast <;> linarith
  rw [hf]
  rfl

/-- Helper: for an angle in `[π/4, 3π/4)`, the snapped turn count is `1`. -/
theorem targetRotationsOf_eq_one (a : ℚ) (h1 : PI32 / 4 ≤ a) (h2 : a < 3 * (PI32 / 4)) :
    targetRotationsOf a = 1 := by
  have hp : (0 : ℚ) < PI32 / 2 := by linarith [PI32_pos]
  have ha : (0 : ℚ) ≤ a := by linarith [PI32_pos]
  have hx0 : 0 ≤ a / (PI32 / 2) := div_nonneg ha (le_of_lt hp)
  have hx1 : (1 : ℚ) / 2 ≤ a / (PI32 / 2) := by
    rw [le_div_iff₀ hp]; linarith
  have hx2 : a / (PI32 / 2) < 3 / 2 := by
    rw [div_lt_iff₀ hp]; linarith
  unfold targetRotationsOf rustRound
  rw [if_pos hx0]
  have hf : ⌊a / (PI32 / 2) + 1 / 2⌋ = 1 := by
    rw [Int.floor_eq_iff]
    constructor <;> push_cast <;> linarith
  rw [hf]
  rfl

/-- **C8 as stated is false**: a release at `current_angle = 0.78` rad
sits *below* the boundary `π/4 ≈ 0.7854`, so `cubie_drag_system` computes
`target_rotations = 0`, not `1` as the claim asserts. -/
theorem c8_counterexample :
    (cubie_drag_system false none
        { axis := CubeAxis.X, viewport_origin := ⟨0, 0⟩, viewport_dir := ⟨1, 0⟩,
          current_angle := 78 / 100 } []).1 =
      DragOutcome.toRotation
        { axis := CubeAxis.X, current_angle := 78 / 100, target_rotations := 0 } ∧
    (78 : ℚ) / 100 < PI32 / 4 ∧
    targetRotationsOf (78 / 100) ≠ 1 := by
  have hwrap : rustRemEuclid (78 / 100) (2 * PI32) = 78 / 100 := by
    unfold rustRemEuclid
    norm_num [PI32]
  have htr : targetRotationsOf (78 / 100) = 0 :=
    targetRotationsOf_eq_zero (78 / 100) (by norm_num) (by norm_num [PI32])
  refine ⟨?_, by norm_num [PI32], by rw [htr]; norm_num⟩
  unfold cubie_drag_system
  rw [hwrap, htr]
  rfl

/-- **C8 amended.** A release at `0.78` rad yields turn count `0`; an
angle rounds to turn count `1` exactly when it is at or above the
half-quarter-turn boundary `π/4` (and below `3π/4`), and rounds to `0`
when it is non-negative and below `π/4`. -/
theorem c8_rounding_boundary :
    targetRotationsOf (78 / 100) = 0 ∧
    (∀ a : ℚ, PI32 / 4 ≤ a → a < 3 * (PI32 / 4) → targetRotationsOf a = 1) ∧
    (∀ a : ℚ, 0 ≤ a → a < PI32 / 4 → targetRotationsOf a = 0) :=
  ⟨targetRotationsOf_eq_zero (78 / 100) (by norm_num) (by norm_num [PI32]),
   fun a h1 h2 => targetRotationsOf_eq_one a h1 h2,
   fun a ha h1 => targetRotationsOf_eq_zero a ha h1⟩

/-- Concrete instantiation of `c8_rounding_boundary`: `1` rad is in
`[π/4, 3π/4)` so it snaps to one quarter turn, and `1/2` rad is in
`[0, π/4)` so it snaps back to zero. -/
theorem c8_rounding_boundary_witness :
    targetRotationsOf 1 = 1 ∧ targetRotationsOf (1 / 2) = 0 :=
  ⟨c8_rounding_boundary.2.1 1 (by norm_num [PI32]) (by norm_num [PI32]),
   c8_rounding_boundary.2.2 (1 / 2) (by norm_num) (by norm_num [PI32])⟩

/-- `EPS` of `cubie_drag_pending_system` (line 307). -/
def EPS_PENDING : ℚ := 1 / 100

/-- Squared length of `v.project_onto_normalized(d)`, i.e. of
`(v.dot(d)) * d`.  The code compares the (non-negative) lengths
themselves; comparing squared lengths is equivalent and keeps the
embedding inside `ℚ`. -/
def projLenSq (v d : Vec2) : ℚ := Vec2.dot v d ^ 2 * Vec2.dot d d

/-- The per-axis tagging loops of `cubie_drag_pending_system` (lines
341–369): every cubie whose coordinate along `axis` equals `index` gets
`BeingDragged { prev_rotation: its current rotation }`. -/
def tagSlice (axis : CubeAxis) (index : ℕ) (cubies : List CubieState) :
    List CubieState :=
  cubies.map fun c =>
    if axisComponent axis c.position = index then
      { c with dragged := some c.transform.rotation }
    else c

/-- What `cubie_drag_pending_system` leaves on the `Cube`: `cancelled`
(`PendingDrag` removed, nothing inserted), `waiting` (`PendingDrag`
kept), or `started` (`PendingDrag` replaced by an `ActiveDrag`). -/
inductive PendingOutcome where
  | cancelled
  | waiting
  | started (d : ActiveDrag)
deriving DecidableEq

/-- The candidate selection of lines 327–339: strictly larger projection
length picks candidate 0, otherwise (including exact ties) candidate 1.
Arguments are the squared projection lengths, ordered the same way as
the lengths themselves. -/
def chooseCandidate (p : PendingDrag) (l0sq l1sq : ℚ) : CubeAxis × ℕ × Vec2 :=
  if l0sq > l1sq then (p.axis_0, p.index_0, p.viewport_dir_0)
  else (p.axis_1, p.index_1, p.viewport_dir_1)

/-- `cubie_drag_pending_system` (lines 284–379) as a transition function.
Length threshold tests are embedded as the equivalent squared-length
tests against `EPS_PENDING ^ 2`. -/
def cubie_drag_pending_system (leftPressed : Bool) (cursor : Option Vec2)
    (p : PendingDrag) (cubies : List CubieState) :
    PendingOutcome × List CubieState :=
  if !leftPressed then (PendingOutcome.cancelled, cubies)
  else
    match cursor with
    | none => (PendingOutcome.cancelled, cubies)
    | some cursor_position =>
      let drag_vector := Vec2.sub cursor_position p.viewport_origin
      if Vec2.lengthSq drag_vector < EPS_PENDING ^ 2 then
        (PendingOutcome.waiting, cubies)
      else
        let l0sq := projLenSq drag_vector p.viewport_dir_0
        let l1sq := projLenSq drag_vector p.viewport_dir_1
        if l0sq < EPS_PENDING ^ 2 ∧ l1sq < EPS_PENDING ^ 2 then
          (PendingOutcome.waiting, cubies)
        else
          let choice := chooseCandidate p l0sq l1sq
          (PendingOutcome.started
            { axis := choice.1
              viewport_origin := p.viewport_origin
              viewport_dir := choice.2.2
              current_angle := 0 },
           tagSlice choice.1 choice.2.1 cubies)

/-- Unfolding lemma: when the button is held, the cursor is available,
and the thresholds are passed, the pending system starts the drag on the
candidate chosen by `chooseCandidate` and tags that slice. -/
theorem pending_system_started (pos : Vec2) (p : PendingDrag)
    (cubies : List CubieState)
    (h1 : ¬ Vec2.lengthSq (Vec2.sub pos p.viewport_origin) < EPS_PENDING ^ 2)
    (h2 : ¬ (projLenSq (Vec2.sub pos p.viewport_origin) p.viewport_dir_0 < EPS_PENDING ^ 2 ∧
             projLenSq (Vec2.sub pos p.viewport_origin) p.viewport_dir_1 < EPS_PENDING ^ 2)) :
    cubie_drag_pending_system true (some pos) p cubies =
      (PendingOutcome.started
        { axis := (chooseCandidate p
            (projLenSq (Vec2.sub pos p.viewport_origin) p.viewport_dir_0)
            (projLenSq (Vec2.sub pos p.viewport_origin) p.viewport_dir_1)).1
          viewport_origin := p.viewport_origin
          viewport_dir := (chooseCandidate p
            (projLenSq (Vec2.sub pos p.viewport_origin) p.viewport_dir_0)
            (projLenSq (Vec2.sub pos p.viewport_origin) p.viewport_dir_1)).2.2
          current_angle := 0 },
       tagSlice
         (chooseCandidate p
           (projLenSq (Vec2.sub pos p.viewport_origin) p.viewport_dir_0)
           (projLenSq (Vec2.sub pos p.viewport_origin) p.viewport_dir_1)).1
         (chooseCandidate p
           (projLenSq (Vec2.sub pos p.viewport_origin) p.viewport_dir_0)
           (projLenSq (Vec2.sub pos p.viewport_origin) p.viewport_dir_1)).2.1
         cubies) := by
  unfold cubie_drag_pending_system
  simp only [Bool.not_true, Bool.false_eq_true, if_false]
  rw [if_neg h1, if_neg h2]

/-- **C9.** While `PendingDrag` exists, a released button or an
unavailable cursor position discards `PendingDrag` (outcome `cancelled`:
nothing is inserted in its place) and leaves every cubie — coordinate,
transform and tags — exactly as it was. -/
theorem c9_pending_abort (leftPressed : Bool) (cursor : Option Vec2)
    (p : PendingDrag) (cubies : List CubieState) :
    cubie_drag_pending_system false cursor p cubies =
      (PendingOutcome.cancelled, cubies) ∧
    cubie_drag_pending_system leftPressed none p cubies =
      (PendingOutcome.cancelled, cubies) := by
  constructor
  · rfl
  · cases leftPressed <;> rfl

/-- **C4 as stated is false**: with both candidate projections exactly
equal (drag `(10,10)` against the orthonormal candidate directions
`(1,0)` and `(0,1)`, both squared projection lengths `100`, far above the
threshold), the strict greater-than test fails and the *second* candidate
(axis `Y`) is selected — not the first (axis `X`) as the claim asserts. -/
theorem c4_counterexample :
    (cubie_drag_pending_system true (some ⟨10, 10⟩)
        { viewport_origin := ⟨0, 0⟩
          axis_0 := CubeAxis.X, index_0 := 0, viewport_dir_0 := ⟨1, 0⟩
          axis_1 := CubeAxis.Y, index_1 := 1, viewport_dir_1 := ⟨0, 1⟩ } []).1 =
      PendingOutcome.started
        { axis := CubeAxis.Y, viewport_origin := ⟨0, 0⟩,
          viewport_dir := ⟨0, 1⟩, current_angle := 0 } ∧
    projLenSq (Vec2.sub ⟨10, 10⟩ ⟨0, 0⟩) ⟨1, 0⟩ =
      projLenSq (Vec2.sub ⟨10, 10⟩ ⟨0, 0⟩) ⟨0, 1⟩ ∧
    ¬ EPS_PENDING ^ 2 > projLenSq (Vec2.sub ⟨10, 10⟩ ⟨0, 0⟩) ⟨1, 0⟩ ∧
    CubeAxis.Y ≠ CubeAxis.X := by
  refine ⟨?_, ?_, ?_, by decide⟩
  · rw [pending_system_started ⟨10, 10⟩ _ []
      (by norm_num [Vec2.lengthSq, Vec2.sub, Vec2.dot, EPS_PENDING])
      (by norm_num [projLenSq, Vec2.sub, Vec2.dot, EPS_PENDING])]
    norm_num [chooseCandidate, projLenSq, Vec2.sub, Vec2.dot]
  · norm_num [projLenSq, Vec2.sub, Vec2.dot]
  · norm_num [projLenSq, Vec2.sub, Vec2.dot, EPS_PENDING]

/-- **C4 amended.** The candidate is decided by strict greater-than on
projection length: a strictly larger candidate-0 projection selects
`(axis_0, index_0, viewport_dir_0)`, while `l0 ≤ l1` — in particular an
exact tie — selects the *second* candidate `(axis_1, index_1,
viewport_dir_1)`. -/
theorem c4_tie_break (p : PendingDrag) (l0sq l1sq : ℚ) :
    (l0sq > l1sq →
      chooseCandidate p l0sq l1sq = (p.axis_0, p.index_0, p.viewport_dir_0)) ∧
    (l0sq ≤ l1sq →
      chooseCandidate p l0sq l1sq = (p.axis_1, p.index_1, p.viewport_dir_1)) := by
  constructor <;> intro h <;> unfold chooseCandidate
  · rw [if_pos h]
  · rw [if_neg (not_lt.mpr h)]

/-- Concrete instantiation of `c4_tie_break` at an exact tie: the second
candidate is returned. -/
theorem c4_tie_break_witness :
    chooseCandidate
      { viewport_origin := ⟨0, 0⟩
        axis_0 := CubeAxis.X, index_0 := 0, viewport_dir_0 := ⟨1, 0⟩
        axis_1 := CubeAxis.Y, index_1 := 1, viewport_dir_1 := ⟨0, 1⟩ } 100 100 =
      (CubeAxis.Y, 1, (⟨0, 1⟩ : Vec2)) :=
  (c4_tie_break _ 100 100).2 (le_refl 100)

/-- The formula `(Vec3::new(x, y, z) - 1.0) / 3.0` used both at spawn
time (line 742) and on snap completion (line 533) to derive a cubie's
translation from its logical coordinate. -/
def cubieTranslation (p : ℕ × ℕ × ℕ) : Vec3 :=
  ⟨((p.1 : ℚ) - 1) / 3, ((p.2.1 : ℚ) - 1) / 3, ((p.2.2 : ℚ) - 1) / 3⟩

/-- The 26 cubie coordinates spawned by `game_setup` (lines 697–749):
all of `{0,1,2}³` in lexicographic loop order, skipping the hidden
center `(1,1,1)`. -/
def initialCubies : List (ℕ × ℕ × ℕ) :=
  (List.range 3).flatMap fun x =>
    (List.range 3).flatMap fun y =>
      (List.range 3).filterMap fun z =>
        if x = 1 ∧ y = 1 ∧ z = 1 then none else some (x, y, z)

/-- A cubie as spawned by `game_setup`: translation derived from the
coordinate, identity rotation, scale `1/3`, no `BeingDragged` tag. -/
def game_setup_cubie (p : ℕ × ℕ × ℕ) : CubieState :=
  { position := p
    transform :=
      { translation := FVec3.base (cubieTranslation p)
        rotation := Quat.ident
        scale := ⟨1 / 3, 1 / 3, 1 / 3⟩ }
    dragged := none }

/-- The cubie states right after `game_setup`. -/
def initialCubieStates : List CubieState := initialCubies.map game_setup_cubie

/-- **C5 as stated is false**: classifying a drag onto axis `X`, slice
index `1` (the middle slice) on the freshly set up cube tags only `8`
cubies, because `game_setup` never spawns the center cubie `(1,1,1)`. -/
theorem c5_counterexample :
    ((cubie_drag_pending_system true (some ⟨10, 0⟩)
        { viewport_origin := ⟨0, 0⟩
          axis_0 := CubeAxis.X, index_0 := 1, viewport_dir_0 := ⟨1, 0⟩
          axis_1 := CubeAxis.Y, index_1 := 0, viewport_dir_1 := ⟨0, 1⟩ }
        initialCubieStates).2.countP fun c => c.dragged.isSome) = 8 ∧
    (8 : ℕ) ≠ 9 := by
  refine ⟨?_, by norm_num⟩
  rw [pending_system_started ⟨10, 0⟩ _ initialCubieStates
    (by norm_num [Vec2.lengthSq, Vec2.sub, Vec2.dot, EPS_PENDING])
    (by norm_num [projLenSq, Vec2.sub, Vec2.dot, EPS_PENDING])]
  rw [show chooseCandidate
      { viewport_origin := ⟨0, 0⟩
        axis_0 := CubeAxis.X, index_0 := 1, viewport_dir_0 := ⟨1, 0⟩
        axis_1 := CubeAxis.Y, index_1 := 0, viewport_dir_1 := ⟨0, 1⟩ }
      (projLenSq (Vec2.sub ⟨10, 0⟩ ⟨0, 0⟩) ⟨1, 0⟩)
      (projLenSq (Vec2.sub ⟨10, 0⟩ ⟨0, 0⟩) ⟨0, 1⟩) =
      (CubeAxis.X, 1, (⟨1, 0⟩ : Vec2)) from by
    unfold chooseCandidate
    rw [if_pos (by norm_num [projLenSq, Vec2.sub, Vec2.dot])]]
  rfl

/-- **C5 amended.** After classification onto axis `a`, index `i`, the
tagged set is exactly the spawned cubies whose coordinate along `a`
equals `i`; on the cube built by `game_setup` that is `9` cubies for the
face slices `i ∈ {0,2}` but `8` for the middle slice `i = 1` (the center
cubie is never spawned), and the tagged cubies are disjoint from the
remaining `17` (respectively `18`). -/
theorem c5_slice_tagging :
    ∀ (axis : CubeAxis) (i : Fin 3),
      (((tagSlice axis (i : ℕ) initialCubieStates).filter fun c =>
          c.dragged.isSome).map fun c => c.position) =
        (initialCubies.filter fun q => axisComponent axis q == (i : ℕ)) ∧
      ((tagSlice axis (i : ℕ) initialCubieStates).countP fun c =>
          c.dragged.isSome) = (if (i : ℕ) = 1 then 8 else 9) ∧
      ((tagSlice axis (i : ℕ) initialCubieStates).countP fun c =>
          !c.dragged.isSome) = (if (i : ℕ) = 1 then 18 else 17) := by
  intro axis i
  cases axis <;> fin_cases i <;> exact ⟨rfl, rfl, rfl⟩

/-- `ROTATION_SPEED` of `cubie_rotation_system` (line 454). -/
def ROTATION_SPEED : ℚ := PI32

/-- `EPS` of `cubie_rotation_system` (line 490). -/
def EPS_SNAP : ℚ := 1 / 1000

/-- `target_angle = target_rotations as f32 * (PI / 2.0)` (line 456). -/
def snapTargetAngle (target_rotations : ℕ) : ℚ :=
  (target_rotations : ℚ) * (PI32 / 2)

/-- The per-frame angular difference of `cubie_rotation_system` (lines
457–467): for target `0` the shorter (by absolute value, ties to the
wrapped side) of `0 - current` and `2π - current`; otherwise
`target_angle - current` directly. -/
def snapAngleDiff (target_rotations : ℕ) (current_angle : ℚ) : ℚ :=
  if target_rotations = 0 then
    let normal_angle_diff := 0 - current_angle
    let wrapped_angle_diff := 2 * PI32 - current_angle
    if |normal_angle_diff| < |wrapped_angle_diff| then normal_angle_diff
    else wrapped_angle_diff
  else snapTargetAngle target_rotations - current_angle

/-- `delta_angle = angle_diff.abs().min(ROTATION_SPEED * delta)
* angle_diff.signum()` (lines 469–470). -/
def snapDeltaAngle (delta_secs : ℚ) (target_rotations : ℕ)
    (current_angle : ℚ) : ℚ :=
  min |snapAngleDiff target_rotations current_angle| (ROTATION_SPEED * delta_secs) *
    rustSignum (snapAngleDiff target_rotations current_angle)

/-- The completion test of lines 492–494, evaluated on the angle *after*
this frame's step was accumulated. -/
def snapDone (delta_secs : ℚ) (rot : ActiveCubeRotation) : Bool :=
  decide (|rot.current_angle + snapDeltaAngle delta_secs rot.target_rotations rot.current_angle -
      snapTargetAngle rot.target_rotations| < EPS_SNAP) ||
  decide (|rustRemEuclid (rot.current_angle +
        snapDeltaAngle delta_secs rot.target_rotations rot.current_angle + EPS_SNAP)
        (2 * PI32) -
      snapTargetAngle rot.target_rotations| < EPS_SNAP)

/-- What `cubie_rotation_system` leaves on the `Cube`: the animation
continues with an updated angle, or it finished and `ActiveCubeRotation`
was removed. -/
inductive RotationOutcome where
  | continuing (r : ActiveCubeRotation)
  | finished
deriving DecidableEq

/-- `cubie_rotation_system` (lines 443–540) as a transition function.
Every frame the `BeingDragged` cubies are rotated by this frame's step;
when the completion test passes, each dragged cubie's coordinate is
permuted, its translation recomputed from the new coordinate, its
rotation overwritten by the exact quarter-turn quaternion composed with
its stored pre-drag rotation, its tag removed, and `ActiveCubeRotation`
removed from the cube. -/
def cubie_rotation_system (delta_secs : ℚ) (rot : ActiveCubeRotation)
    (cubies : List CubieState) : RotationOutcome × List CubieState :=
  let delta_angle := snapDeltaAngle delta_secs rot.target_rotations rot.current_angle
  let rotation_quat := Quat.fromAxisAngle (axisVec rot.axis) delta_angle
  let rotated := cubies.map fun c =>
    if c.dragged.isSome then
      { c with transform := Transform.rotateAroundOrigin c.transform rotation_quat }
    else c
  if snapDone delta_secs rot then
    let cubie_rotation_quat :=
      Quat.fromAxisAngle (axisVec rot.axis) ((PI32 / 2) * (rot.target_rotations : ℚ))
    (RotationOutcome.finished,
     rotated.map fun c =>
       match c.dragged with
       | some prev =>
         { position := rotatePosition rot.axis rot.target_rotations c.position
           transform :=
             { translation :=
                 FVec3.base (cubieTranslation (rotatePosition rot.axis rot.target_rotations c.position))
               rotation := Quat.mulQuat cubie_rotation_quat prev
               scale := c.transform.scale }
           dragged := none }
       | none => c)
  else
    (RotationOutcome.continuing { rot with current_angle := rot.current_angle + delta_angle },
     rotated)

/-- **C7.** In the snap animator, for `target_turn_count = 0` the angular
difference is whichever of `0 - current` and `2π - current` has the
strictly smaller absolute value; at `current = 2π - 0.01` the wrap path
`2π - current` is chosen; for `target_turn_count` `1`, `2` or `3` the
difference is `target - current` directly. -/
theorem c7_snap_angle_diff :
    (∀ a : ℚ, |0 - a| < |2 * PI32 - a| → snapAngleDiff 0 a = 0 - a) ∧
    (∀ a : ℚ, |2 * PI32 - a| < |0 - a| → snapAngleDiff 0 a = 2 * PI32 - a) ∧
    snapAngleDiff 0 (2 * PI32 - 1 / 100) = 2 * PI32 - (2 * PI32 - 1 / 100) ∧
    (∀ a : ℚ, snapAngleDiff 1 a = 1 * (PI32 / 2) - a) ∧
    (∀ a : ℚ, snapAngleDiff 2 a = 2 * (PI32 / 2) - a) ∧
    (∀ a : ℚ, snapAngleDiff 3 a = 3 * (PI32 / 2) - a) := by
  refine ⟨?_, ?_, ?_, ?_, ?_, ?_⟩
  · intro a h
    unfold snapAngleDiff
    rw [if_pos rfl, if_pos h]
  · intro a h
    unfold snapAngleDiff
    rw [if_pos rfl, if_neg (by linarith [abs_nonneg ((0 : ℚ) - a)])]
  · unfold snapAngleDiff
    rw [if_pos rfl,
      if_neg (by
        rw [abs_of_nonpos (by norm_num [PI32]), abs_of_nonneg (by norm_num [PI32])]
        norm_num [PI32])]
  · intro a
    norm_num [snapAngleDiff, snapTargetAngle]
  · intro a
    norm_num [snapAngleDiff, snapTargetAngle]
  · intro a
    norm_num [snapAngleDiff, snapTargetAngle]

/-- Concrete instantiation of `c7_snap_angle_diff`: at `current = 6`
(just below `2π`) the wrap path is strictly shorter and is chosen. -/
theorem c7_snap_angle_diff_witness : snapAngleDiff 0 6 = 2 * PI32 - 6 :=
  c7_snap_angle_diff.2.1 6 (by
    rw [abs_of_nonneg (by norm_num [PI32]), abs_of_nonpos (by norm_num)]
    norm_num [PI32])

/-- **C6.** Whenever the snap completion test passes, the system reports
`finished` (removing `ActiveCubeRotation`) and every `BeingDragged`
cubie ends with rotation exactly `quarter_turn_quaternion ∘
pre_drag_rotation` (the stored `prev_rotation`, not the intermediate
animated rotation), translation recomputed as `(coordinate - 1)/3` from
its permuted coordinate, and its tag removed; untagged cubies are
untouched. -/
theorem c6_snap_completion (delta_secs : ℚ) (rot : ActiveCubeRotation)
    (cubies : List CubieState) (h : snapDone delta_secs rot = true) :
    (cubie_rotation_system delta_secs rot cubies).1 = RotationOutcome.finished ∧
    (cubie_rotation_system delta_secs rot cubies).2 = cubies.map fun c =>
      match c.dragged with
      | some prev =>
        { position := rotatePosition rot.axis rot.target_rotations c.position
          transform :=
            { translation :=
                FVec3.base (cubieTranslation (rotatePosition rot.axis rot.target_rotations c.position))
              rotation :=
                Quat.mulQuat
                  (Quat.fromAxisAngle (axisVec rot.axis) ((PI32 / 2) * (rot.target_rotations : ℚ)))
                  prev
              scale := c.transform.scale }
          dragged := none }
      | none => c := by
  unfold cubie_rotation_system
  rw [h]
  constructor
  · rfl
  · show (List.map _ (List.map _ cubies)) = _
    rw [List.map_map]
    apply List.map_congr_left
    intro c _
    cases hc : c.dragged with
    | none => simp [Function.comp, hc]
    | some prev => simp [Function.comp, hc, Transform.rotateAroundOrigin]

/-- Concrete instantiation of `c6_snap_completion`: with zero frame time
at exactly the target angle the completion test passes and the system
reports `finished`. -/
theorem c6_snap_completion_witness :
    snapDone 0 { axis := CubeAxis.X, current_angle := PI32 / 2, target_rotations := 1 } = true ∧
    (cubie_rotation_system 0
      { axis := CubeAxis.X, current_angle := PI32 / 2, target_rotations := 1 }
      [{ position := (0, 0, 0)
         transform :=
           { translation := FVec3.base (cubieTranslation (0, 0, 0))
             rotation := Quat.ident
             scale := ⟨1 / 3, 1 / 3, 1 / 3⟩ }
         dragged := some Quat.ident }]).1 = RotationOutcome.finished := by
  have hdone : snapDone 0
      { axis := CubeAxis.X, current_angle := PI32 / 2, target_rotations := 1 } = true := by
    norm_num [snapDone, snapDeltaAngle, snapAngleDiff, snapTargetAngle, rustSignum,
      EPS_SNAP, ROTATION_SPEED]
  exact ⟨hdone, (c6_snap_completion 0 _ _ hdone).1⟩

/-- `EPS` of `cubie_drag_init_system` (line 177). -/
def EPS_FACE : ℚ := 1 / 10000

/-- The face identification if-chain of `cubie_drag_init_system` (lines
179–191): the entry point is tested against `PosX`, `NegX`, `PosY`,
`NegY`, `PosZ` in that order with tolerance `EPS_FACE`; anything else is
`NegZ`. -/
def hitFace (hit : Vec3) : CubeFace :=
  if |hit.x - 1 / 2| < EPS_FACE then CubeFace.PosX
  else if |hit.x + 1 / 2| < EPS_FACE then CubeFace.NegX
  else if |hit.y - 1 / 2| < EPS_FACE then CubeFace.PosY
  else if |hit.y + 1 / 2| < EPS_FACE then CubeFace.NegY
  else if |hit.z - 1 / 2| < EPS_FACE then CubeFace.PosZ
  else CubeFace.NegZ

/-- The face → local up direction table (lines 193–200). -/
def hitUpDirection : CubeFace → Vec3
  | .PosX => ⟨0, 1, 0⟩
  | .NegX => ⟨0, -1, 0⟩
  | .PosY => ⟨0, 0, 1⟩
  | .NegY => ⟨0, 0, -1⟩
  | .PosZ => ⟨0, -1, 0⟩
  | .NegZ => ⟨0, 1, 0⟩

/-- The face → local right direction table (lines 202–209). -/
def hitRightDirection : CubeFace → Vec3
  | .PosX => ⟨0, 0, -1⟩
  | .NegX => ⟨0, 0, 1⟩
  | .PosY => ⟨-1, 0, 0⟩
  | .NegY => ⟨1, 0, 0⟩
  | .PosZ => ⟨1, 0, 0⟩
  | .NegZ => ⟨-1, 0, 0⟩

/-- The face → axis table for the u-indexed candidate (lines 259–262). -/
def faceAxis0 : CubeFace → CubeAxis
  | .PosY | .NegY | .PosZ | .NegZ => CubeAxis.X
  | .PosX | .NegX => CubeAxis.Z

/-- The face → axis table for the v-indexed candidate (lines 266–269). -/
def faceAxis1 : CubeFace → CubeAxis
  | .PosX | .NegX | .PosZ | .NegZ => CubeAxis.Y
  | .PosY | .NegY => CubeAxis.Z

/-- **C10.** Face identification is the fixed ordered chain over `PosX`,
`NegX`, `PosY`, `NegY`, `PosZ` with tolerance `1e-4`, and never aborts:
any entry point matching none of the five tests — e.g. the origin, whose
coordinates are all `1/2` away from `±1/2` — falls through to `NegZ`,
for which the direction and axis tables are defined, so the picker
proceeds instead of rejecting the pick. -/
theorem c10_face_identification :
    (∀ v : Vec3, |v.x - 1 / 2| < EPS_FACE → hitFace v = CubeFace.PosX) ∧
    (∀ v : Vec3, ¬ |v.x - 1 / 2| < EPS_FACE → |v.x + 1 / 2| < EPS_FACE →
      hitFace v = CubeFace.NegX) ∧
    (∀ v : Vec3, ¬ |v.x - 1 / 2| < EPS_FACE → ¬ |v.x + 1 / 2| < EPS_FACE →
      |v.y - 1 / 2| < EPS_FACE → hitFace v = CubeFace.PosY) ∧
    (∀ v : Vec3, ¬ |v.x - 1 / 2| < EPS_FACE → ¬ |v.x + 1 / 2| < EPS_FACE →
      ¬ |v.y - 1 / 2| < EPS_FACE → |v.y + 1 / 2| < EPS_FACE →
      hitFace v = CubeFace.NegY) ∧
    (∀ v : Vec3, ¬ |v.x - 1 / 2| < EPS_FACE → ¬ |v.x + 1 / 2| < EPS_FACE →
      ¬ |v.y - 1 / 2| < EPS_FACE → ¬ |v.y + 1 / 2| < EPS_FACE →
      |v.z - 1 / 2| < EPS_FACE → hitFace v = CubeFace.PosZ) ∧
    (∀ v : Vec3, ¬ |v.x - 1 / 2| < EPS_FACE → ¬ |v.x + 1 / 2| < EPS_FACE →
      ¬ |v.y - 1 / 2| < EPS_FACE → ¬ |v.y + 1 / 2| < EPS_FACE →
      ¬ |v.z - 1 / 2| < EPS_FACE → hitFace v = CubeFace.NegZ) ∧
    hitFace ⟨0, 0, 0⟩ = CubeFace.NegZ ∧
    hitUpDirection CubeFace.NegZ = ⟨0, 1, 0⟩ ∧
    hitRightDirection CubeFace.NegZ = ⟨-1, 0, 0⟩ ∧
    faceAxis0 CubeFace.NegZ = CubeAxis.X ∧
    faceAxis1 CubeFace.NegZ = CubeAxis.Y := by
  refine ⟨?_, ?_, ?_, ?_, ?_, ?_, ?_, rfl, rfl, rfl, rfl⟩
  · intro v h1
    unfold hitFace
    rw [if_pos h1]
  · intro v h1 h2
    unfold hitFace
    rw [if_neg h1, if_pos h2]
  · intro v h1 h2 h3
    unfold hitFace
    rw [if_neg h1, if_neg h2, if_pos h3]
  · intro v h1 h2 h3 h4
    unfold hitFace
    rw [if_neg h1, if_neg h2, if_neg h3, if_pos h4]
  · intro v h1 h2 h3 h4 h5
    unfold hitFace
    rw [if_neg h1, if_neg h2, if_neg h3, if_neg h4, if_pos h5]
  · intro v h1 h2 h3 h4 h5
    unfold hitFace
    rw [if_neg h1, if_neg h2, if_neg h3, if_neg h4, if_neg h5]
  · unfold hitFace
    rw [if_neg (by rw [abs_lt]; norm_num [EPS_FACE]),
      if_neg (by rw [abs_lt]; norm_num [EPS_FACE]),
      if_neg (by rw [abs_lt]; norm_num [EPS_FACE]),
      if_neg (by rw [abs_lt]; norm_num [EPS_FACE]),
      if_neg (by rw [abs_lt]; norm_num [EPS_FACE])]

/-- Concrete instantiation of `c10_face_identification`: the origin
matches none of the five face tests and is classified `NegZ` by the
fallthrough branch. -/
theorem c10_face_identification_witness :
    hitFace ⟨0, 0, 0⟩ = CubeFace.NegZ :=
  c10_face_identification.2.2.2.2.2.1 ⟨0, 0, 0⟩
    (by rw [abs_lt]; norm_num [EPS_FACE])
    (by rw [abs_lt]; norm_num [EPS_FACE])
    (by rw [abs_lt]; norm_num [EPS_FACE])
    (by rw [abs_lt]; norm_num [EPS_FACE])
    (by rw [abs_lt]; norm_num [EPS_FACE])

end Ruvik
